import Mathlib

/-!
Shallow embedding of the superfluid-aragon-app flow-accounting and
validation core.

Embedded from the source:
* `validateFields` — src/unnamed/part_000, lines 22–37.
* `existingFlow` — src/unnamed/part_000, lines 74–88 (the useMemo body of
  InnerUpdateFlow).
* `superTokenItem` / `useSuperTokenItems` — src/app/src/hooks/useSuperTokenItems.js.

The helper module `../../../helpers` (calculateCurrentAmount,
calculateRequiredDeposit, calculateNewFlowRate, addressesEqual, fromDecimals,
getAvailableSuperTokens, getConvertedAmount, getConvertRateToken,
DEFAULT_CURRENCY, isTestNetwork) and the web3-utils `isAddress` are not under
src/; those definitions are modelled from the spec, as marked in their doc
comments.

Numbers: balances, flows and timestamps are integers (smallest unit /
seconds); rates and display-unit amounts are exact rationals ℚ, the
idealisation of the JS double. The one JS-number behaviour the claims need
beyond ℚ is NaN, modelled explicitly by `JSNum`.
-/

/-- A hexadecimal digit, either case. -/
def isHexDigitChar (c : Char) : Bool :=
  ('0' ≤ c && c ≤ '9') || ('a' ≤ c && c ≤ 'f') || ('A' ≤ c && c ≤ 'F')

/-- Modelled from the spec: `isAddress` comes from the external web3-utils
library, not from this repository; the spec (§4.4 check 1, §9) requires only
structural validity of an Ethereum address: the characters `0x` followed by
40 hexadecimal digits. -/
def isAddress (s : String) : Bool :=
  s.data.length == 42 &&
    (match s.data with
     | '0' :: 'x' :: rest => rest.all isHexDigitChar
     | _ => false)

/-- Character-wise lowercasing of a string (kernel-reducible form of
String.toLower). -/
def lowerString (s : String) : String := ⟨s.data.map Char.toLower⟩

/-- Modelled from the spec: the helper `addressesEqual` is imported from
`../../../helpers`, which is not under src/. Spec §4.3/§4.4: canonical
case-insensitive hex-address comparison, not raw string equality. -/
def addressesEqual (a b : String) : Bool := lowerString a == lowerString b

/-- A JS number as observed by the validator: an exact rational, or NaN (the
result of `Number(x)` on a non-numeric string). -/
inductive JSNum where
  | num (v : ℚ)
  | nan
deriving DecidableEq

/-- The source test `Number(flowRate) <= 0`: false when the value is NaN,
because every comparison against NaN is false in JS. -/
def JSNum.leZero : JSNum → Bool
  | .num v => v ≤ 0
  | .nan => false

/-- TokenSnapshot of the data model (spec §3) with the fields read by
validateFields and useSuperTokenItems. -/
structure SuperToken where
  address : String
  name : String
  symbol : String
  decimals : Nat
  balance : Int
  netFlow : Int
  inflowRate : Int
  outflowRate : Int
  lastUpdateDate : Int
  depletionDate : Int
  logoURI : String
  liquidationPeriodSeconds : Int
deriving DecidableEq

/-- Flow record of the data model (spec §3) with the fields read by the
existing-flow lookup. -/
structure FlowRecord where
  entity : String
  superTokenAddress : String
  flowRate : ℚ
  isIncoming : Bool
  isCancelled : Bool
deriving DecidableEq

/-- Modelled from the spec (§4.1): `calculateCurrentAmount` lives in
`../../../helpers`, not under src/. Contract: balance plus net flow times
elapsed seconds, with negative elapsed time (clock skew) clamped to 0.
Timestamps are whole seconds, so the truncation of fractional seconds is
implicit. The source call site passes `now` implicitly; here it is explicit
as in the spec signature. -/
def calculateCurrentAmount (balance netFlowRate lastUpdateDate now : Int) : Int :=
  balance + netFlowRate * max (now - lastUpdateDate) 0

/-- Modelled from the spec (§4.2): `calculateRequiredDeposit` lives in
`../../../helpers`, not under src/. Contract: flowRate times
liquidationPeriodSeconds, and 0 whenever either is non-positive. -/
def calculateRequiredDeposit (flowRate : ℚ) (liquidationPeriodSeconds : Int) : ℚ :=
  if flowRate ≤ 0 ∨ liquidationPeriodSeconds ≤ 0 then 0
  else flowRate * (liquidationPeriodSeconds : ℚ)

/-- Modelled from the spec (§4.3): `calculateNewFlowRate` lives in
`../../../helpers`, not under src/. The requested rate is the new absolute
target rate whether or not an existing flow was located; no additive
composition. -/
def calculateNewFlowRate (existingFlow : Option FlowRecord) (flowRate : ℚ) : ℚ :=
  flowRate

/-- Modelled from the spec: `fromDecimals` lives in `../../../helpers`, not
under src/. It converts a smallest-unit integer amount into token display
units by dividing by 10^decimals. -/
def fromDecimals (value : Int) (decimals : Nat) : ℚ :=
  Rat.divInt value ((10 : Int) ^ decimals)

/-- The closed set of rejection reasons of spec §7. The source returns the
corresponding message strings; `InsufficientBalance` carries the token symbol
interpolated into its message. -/
inductive ValidationError where
  | InvalidAddress
  | SelfFlowForbidden
  | NonPositiveRate
  | InsufficientBalance (symbol : String)
deriving DecidableEq

/-- Embedding of `validateFields` (src/unnamed/part_000, lines 22–37).
The source returns an error message string or undefined; undefined is `none`
and each message is represented by its reason code. `flowRate` is the value
of `Number(flowRate)` on the raw form input, `requiredDeposit` is passed by
the caller, and `now` is the explicit clock argument of the
calculateCurrentAmount call. -/
def validateFields (superToken : SuperToken) (recipient : String) (flowRate : JSNum)
    (agentAddress : String) (requiredDeposit : ℚ) (now : Int) : Option ValidationError :=
  if !(isAddress recipient) then
    some .InvalidAddress
  else if addressesEqual recipient agentAddress then
    some .SelfFlowForbidden
  else if flowRate.leZero then
    some .NonPositiveRate
  else
    let currentBalance :=
      calculateCurrentAmount superToken.balance superToken.netFlow
        superToken.lastUpdateDate now
    if fromDecimals currentBalance superToken.decimals < requiredDeposit then
      some (.InsufficientBalance superToken.symbol)
    else
      none

/-- The spec §4.4 `validate` surface: InnerUpdateFlow computes
`requiredDeposit = calculateRequiredDeposit(flowRate, liquidationPeriodSeconds)`
and handleSubmit passes it to validateFields together with the snapshot, the
recipient, the rate and the agent address. -/
def validate (tokenSnapshot : SuperToken) (recipient : String) (requestedRate : ℚ)
    (agentAddress : String) (now : Int) : Option ValidationError :=
  validateFields tokenSnapshot recipient (.num requestedRate) agentAddress
    (calculateRequiredDeposit requestedRate tokenSnapshot.liquidationPeriodSeconds) now

/-- Embedding of the `existingFlow` useMemo of InnerUpdateFlow
(src/unnamed/part_000, lines 74–88). The source computes
`flows.findIndex(...)` and then indexes `flows[flowIndex]`; an index of -1
yields undefined, so the whole is `List.find?`. -/
def existingFlow (isFlowUpdateOperation : Bool) (flows : List FlowRecord)
    (recipient selectedTokenAddress : String) : Option FlowRecord :=
  if isFlowUpdateOperation || !(isAddress recipient) || !(isAddress selectedTokenAddress) then
    none
  else
    flows.find? fun f =>
      !f.isCancelled && !f.isIncoming && addressesEqual f.entity recipient &&
        addressesEqual f.superTokenAddress selectedTokenAddress

/-- RateTable of the data model (spec §3): rate-lookup identifier → currency
code → rate, entries possibly absent. -/
def RateTable : Type := String → String → Option ℚ

/-- Modelled from the spec (§4.5): the fixed canonical mainnet-equivalent
rate-lookup identifier substituted on test networks. Its concrete value lives
in `../helpers`, not under src/; any fixed constant serves the claims. -/
def TEST_NETWORK_CONVERT_TOKEN : String :=
  "0x6b175474e89094c44da98b954eedeac495271d0f"

/-- Modelled from the spec (§4.5): `getConvertRateToken` lives in
`../helpers`, not under src/. On a test network the fixed mainnet-equivalent
identifier substitutes for the token address; otherwise the token address is
used. -/
def getConvertRateToken (superToken : SuperToken) (isTestNet : Bool) : String :=
  if isTestNet then TEST_NETWORK_CONVERT_TOKEN else superToken.address

/-- Modelled from the spec (§4.5): `getAvailableSuperTokens` lives in
`../helpers`, not under src/. It keeps the snapshots with a non-zero balance
or a non-zero net flow, preserving input order (a filter). -/
def getAvailableSuperTokens (superTokens : List SuperToken) : List SuperToken :=
  superTokens.filter fun t => t.balance != 0 || t.netFlow != 0

/-- Modelled from the spec (§4.5): `getConvertedAmount` lives in
`../helpers`, not under src/. It multiplies the amount by the conversion
rate. -/
def getConvertedAmount (amount : Int) (conversionRate : ℚ) : ℚ :=
  (amount : ℚ) * conversionRate

/-- One display record of useSuperTokenItems, in field order of the source
object literal. -/
structure SuperTokenItem where
  address : String
  amount : Int
  convertedAmount : Option ℚ
  decimals : Nat
  depletionDate : Int
  lastUpdateDate : Int
  logoURI : String
  name : String
  inflowRate : Int
  outflowRate : Int
  netFlow : Int
  convertedNetFlow : Option ℚ
  symbol : String
deriving DecidableEq

/-- The per-token body of the map in useSuperTokenItems
(src/app/src/hooks/useSuperTokenItems.js, lines 20–59). The source reads
`convertRates[getConvertRateToken(superToken, isTestNet)]?.[DEFAULT_CURRENCY]`
and guards with `if (conversionRate)`, which is JS truthiness: the converted
fields are produced only when the looked-up rate exists and is non-zero,
otherwise both stay undefined. The reference currency is passed explicitly
(spec §9). -/
def superTokenItem (convertRates : RateTable) (referenceCurrency : String)
    (isTestNet : Bool) (superToken : SuperToken) : SuperTokenItem :=
  let conversionRate := convertRates (getConvertRateToken superToken isTestNet) referenceCurrency
  let converted : Option ℚ × Option ℚ :=
    match conversionRate with
    | some rate =>
      if rate ≠ 0 then
        (some (getConvertedAmount superToken.balance rate),
         some (getConvertedAmount superToken.netFlow rate))
      else (none, none)
    | none => (none, none)
  { address := superToken.address
    amount := superToken.balance
    convertedAmount := converted.1
    decimals := superToken.decimals
    depletionDate := superToken.depletionDate
    lastUpdateDate := superToken.lastUpdateDate
    logoURI := superToken.logoURI
    name := superToken.name
    inflowRate := superToken.inflowRate
    outflowRate := superToken.outflowRate
    netFlow := superToken.netFlow
    convertedNetFlow := converted.2
    symbol := superToken.symbol }

/-- Embedding of the balanceItems computation of useSuperTokenItems
(src/app/src/hooks/useSuperTokenItems.js, lines 19–60): map `superTokenItem`
over `getAvailableSuperTokens(superTokens)`. -/
def useSuperTokenItems (superTokens : List SuperToken) (convertRates : RateTable)
    (referenceCurrency : String) (isTestNet : Bool) : List SuperTokenItem :=
  (getAvailableSuperTokens superTokens).map
    (superTokenItem convertRates referenceCurrency isTestNet)

/-! Sample data used by the concrete witnesses. -/

/-- A concrete token snapshot: 5000.00 units of a 2-decimal token. -/
def sampleToken : SuperToken :=
  { address := "0x1111111111111111111111111111111111111111"
    name := "Fake DAI"
    symbol := "fDAI"
    decimals := 2
    balance := 500000
    netFlow := 0
    inflowRate := 0
    outflowRate := 0
    lastUpdateDate := 1700000000
    depletionDate := 0
    logoURI := ""
    liquidationPeriodSeconds := 3600 }

/-- A concrete recipient address distinct from the agent. -/
def recipientSample : String := "0x2222222222222222222222222222222222222222"

/-- A concrete non-cancelled outgoing flow to a lowercase-spelled
counterparty. -/
def flowSample : FlowRecord :=
  { entity := "0xabcdefabcdefabcdefabcdefabcdefabcdefabcd"
    superTokenAddress := "0x1111111111111111111111111111111111111111"
    flowRate := 1
    isIncoming := false
    isCancelled := false }

/-- A rate table whose only entry, for the sample token in USD, is the rate
zero. -/
def zeroRateTable : RateTable := fun tokenId currency =>
  if tokenId == sampleToken.address && currency == "USD" then some 0 else none

/-- A rate table whose only entry, for the sample token in USD, is the rate
two. -/
def twoRateTable : RateTable := fun tokenId currency =>
  if tokenId == sampleToken.address && currency == "USD" then some 2 else none

/-! Claims. -/

/-- C2: for all integer balances, net flow rates and timestamps with
t0 ≤ t1, the current amount is balance + netFlowRate * (t1 - t0); and for
t1 < t0 the elapsed time is clamped to 0, so the result equals balance. -/
theorem calculateCurrentAmount_spec (balance netFlowRate t0 t1 : Int) :
    (t0 ≤ t1 →
      calculateCurrentAmount balance netFlowRate t0 t1 = balance + netFlowRate * (t1 - t0)) ∧
    (t1 < t0 → calculateCurrentAmount balance netFlowRate t0 t1 = balance) := by
  constructor
  · intro h
    unfold calculateCurrentAmount
    rw [max_eq_left (by omega)]
  · intro h
    unfold calculateCurrentAmount
    rw [max_eq_right (by omega)]
    simp

/-- Witness for C2 at balance 1000, rate 7, timestamps 10 and 25 (and the
skewed pair 25, 10). -/
theorem calculateCurrentAmount_spec_witness :
    calculateCurrentAmount 1000 7 10 25 = 1000 + 7 * (25 - 10) ∧
    calculateCurrentAmount 1000 7 25 10 = 1000 :=
  ⟨(calculateCurrentAmount_spec 1000 7 10 25).1 (by decide),
   (calculateCurrentAmount_spec 1000 7 25 10).2 (by decide)⟩

/-- C3: for positive rate and positive liquidation period the required
deposit is their product; whenever either is non-positive it is 0. -/
theorem calculateRequiredDeposit_spec (flowRate : ℚ) (liquidationPeriodSeconds : Int) :
    (0 < flowRate → 0 < liquidationPeriodSeconds →
      calculateRequiredDeposit flowRate liquidationPeriodSeconds =
        flowRate * (liquidationPeriodSeconds : ℚ)) ∧
    (flowRate ≤ 0 ∨ liquidationPeriodSeconds ≤ 0 →
      calculateRequiredDeposit flowRate liquidationPeriodSeconds = 0) := by
  constructor
  · intro h1 h2
    unfold calculateRequiredDeposit
    rw [if_neg (by push_neg; exact ⟨h1, h2⟩)]
  · intro h
    unfold calculateRequiredDeposit
    rw [if_pos h]

/-- Witness for C3 at rate 2 with period 3600, rate -1 with period 3600, and
rate 2 with period 0. -/
theorem calculateRequiredDeposit_spec_witness :
    calculateRequiredDeposit 2 3600 = 2 * ((3600 : Int) : ℚ) ∧
    calculateRequiredDeposit (-1) 3600 = 0 ∧
    calculateRequiredDeposit 2 0 = 0 :=
  ⟨(calculateRequiredDeposit_spec 2 3600).1 (by decide) (by decide),
   (calculateRequiredDeposit_spec (-1) 3600).2 (Or.inl (by decide)),
   (calculateRequiredDeposit_spec 2 0).2 (Or.inr (by decide))⟩

/-- C5: the resolved rate is the requested rate unchanged, both without an
existing flow (create) and with any existing flow record (update); no
additive composition. -/
theorem calculateNewFlowRate_spec (requestedRate : ℚ) :
    calculateNewFlowRate none requestedRate = requestedRate ∧
    (∀ f : FlowRecord, calculateNewFlowRate (some f) requestedRate = requestedRate) :=
  ⟨rfl, fun _ => rfl⟩

/-- C8: the rate-lookup identifier is the fixed mainnet-equivalent constant
exactly when the test-network flag is set, and the token address otherwise. -/
theorem getConvertRateToken_spec (superToken : SuperToken) :
    getConvertRateToken superToken true = TEST_NETWORK_CONVERT_TOKEN ∧
    getConvertRateToken superToken false = superToken.address :=
  ⟨rfl, rfl⟩

/-- C9: validateFields is a deterministic function of its arguments: equal
inputs give equal validation results. -/
theorem validateFields_deterministic (s1 s2 : SuperToken) (r1 r2 : String)
    (f1 f2 : JSNum) (a1 a2 : String) (d1 d2 : ℚ) (n1 n2 : Int)
    (hs : s1 = s2) (hr : r1 = r2) (hf : f1 = f2) (ha : a1 = a2)
    (hd : d1 = d2) (hn : n1 = n2) :
    validateFields s1 r1 f1 a1 d1 n1 = validateFields s2 r2 f2 a2 d2 n2 := by
  subst hs; subst hr; subst hf; subst ha; subst hd; subst hn; rfl

/-- Witness for C9 at the sample token and recipient. -/
theorem validateFields_deterministic_witness :
    validateFields sampleToken recipientSample (.num 1)
        "0x1111111111111111111111111111111111111111" 0 1700000000 =
      validateFields sampleToken recipientSample (.num 1)
        "0x1111111111111111111111111111111111111111" 0 1700000000 :=
  validateFields_deterministic sampleToken sampleToken recipientSample recipientSample
    (.num 1) (.num 1) "0x1111111111111111111111111111111111111111"
    "0x1111111111111111111111111111111111111111" 0 0 1700000000 1700000000
    rfl rfl rfl rfl rfl rfl

/-- C1: validate performs the four checks in order with short-circuit: the
result is InvalidAddress exactly on a structurally invalid recipient;
SelfFlowForbidden exactly on a valid recipient canonically equal to the agent
address; NonPositiveRate exactly when additionally the requested rate is not
strictly positive; InsufficientBalance, carrying the token symbol, exactly
when additionally the current amount in display units is below the required
deposit; and Ok (none) exactly when all four checks pass. -/
theorem validate_checks (tokenSnapshot : SuperToken) (recipient : String)
    (requestedRate : ℚ) (agentAddress : String) (now : Int) :
    (validate tokenSnapshot recipient requestedRate agentAddress now =
        some .InvalidAddress ↔ isAddress recipient = false) ∧
    (validate tokenSnapshot recipient requestedRate agentAddress now =
        some .SelfFlowForbidden ↔
      isAddress recipient = true ∧ addressesEqual recipient agentAddress = true) ∧
    (validate tokenSnapshot recipient requestedRate agentAddress now =
        some .NonPositiveRate ↔
      isAddress recipient = true ∧ addressesEqual recipient agentAddress = false ∧
        requestedRate ≤ 0) ∧
    (∀ symbol, validate tokenSnapshot recipient requestedRate agentAddress now =
        some (.InsufficientBalance symbol) ↔
      isAddress recipient = true ∧ addressesEqual recipient agentAddress = false ∧
        0 < requestedRate ∧
        fromDecimals
            (calculateCurrentAmount tokenSnapshot.balance tokenSnapshot.netFlow
              tokenSnapshot.lastUpdateDate now) tokenSnapshot.decimals <
          calculateRequiredDeposit requestedRate tokenSnapshot.liquidationPeriodSeconds ∧
        tokenSnapshot.symbol = symbol) ∧
    (validate tokenSnapshot recipient requestedRate agentAddress now = none ↔
      isAddress recipient = true ∧ addressesEqual recipient agentAddress = false ∧
        0 < requestedRate ∧
        calculateRequiredDeposit requestedRate tokenSnapshot.liquidationPeriodSeconds ≤
          fromDecimals
            (calculateCurrentAmount tokenSnapshot.balance tokenSnapshot.netFlow
              tokenSnapshot.lastUpdateDate now) tokenSnapshot.decimals) := by
  unfold validate validateFields
  cases h1 : isAddress recipient with
  | false => simp [h1]
  | true =>
    cases h2 : addressesEqual recipient agentAddress with
    | true => simp [h1, h2]
    | false =>
      by_cases h3 : requestedRate ≤ 0
      · simp [h1, h2, h3, JSNum.leZero, not_lt.mpr h3]
      · by_cases h4 : fromDecimals
            (calculateCurrentAmount tokenSnapshot.balance tokenSnapshot.netFlow
              tokenSnapshot.lastUpdateDate now) tokenSnapshot.decimals <
            calculateRequiredDeposit requestedRate tokenSnapshot.liquidationPeriodSeconds
        · simp [h1, h2, h3, h4, JSNum.leZero, not_le.mp h3, not_le.mpr h4]
        · simp [h1, h2, h3, h4, JSNum.leZero, not_le.mp h3, le_of_not_lt h4]

/-- C10: with a valid, non-self recipient and a NaN requested rate (the
numeric coercion of a non-numeric string), the NonPositiveRate check does not
fire — every comparison against NaN is false — so validation falls through to
the balance/deposit check. -/
theorem validateFields_nan (superToken : SuperToken) (recipient agentAddress : String)
    (requiredDeposit : ℚ) (now : Int)
    (hr : isAddress recipient = true)
    (hne : addressesEqual recipient agentAddress = false) :
    validateFields superToken recipient .nan agentAddress requiredDeposit now =
      (if fromDecimals
            (calculateCurrentAmount superToken.balance superToken.netFlow
              superToken.lastUpdateDate now) superToken.decimals < requiredDeposit then
        some (.InsufficientBalance superToken.symbol)
      else none) ∧
    validateFields superToken recipient .nan agentAddress requiredDeposit now ≠
      some .NonPositiveRate := by
  unfold validateFields
  simp only [hr, hne, JSNum.leZero, Bool.not_true, Bool.false_eq_true, if_false,
    if_true, ite_false]
  refine ⟨by trivial, ?_⟩
  split <;> simp

/-- Witness for C10: the sample token, recipient, agent address equal to the
token address, deposit 0 at the snapshot time. -/
theorem validateFields_nan_witness :
    (validateFields sampleToken recipientSample .nan
        "0x1111111111111111111111111111111111111111" 0 1700000000 =
      (if fromDecimals
            (calculateCurrentAmount sampleToken.balance sampleToken.netFlow
              sampleToken.lastUpdateDate 1700000000) sampleToken.decimals < 0 then
        some (.InsufficientBalance sampleToken.symbol)
      else none)) ∧
    validateFields sampleToken recipientSample .nan
        "0x1111111111111111111111111111111111111111" 0 1700000000 ≠
      some .NonPositiveRate :=
  validateFields_nan sampleToken recipientSample
    "0x1111111111111111111111111111111111111111" 0 1700000000 (by decide) (by decide)

/-- C4: under valid input addresses and outside the preset-update mode, the
existing-flow lookup returns a member flow exactly when some flow of the
collection is non-cancelled, outgoing, and matches the recipient and the
selected token address canonically; any returned flow satisfies those
conditions (so a cancelled match is never returned); and the lookup result is
unchanged under canonically equal (for instance re-cased) input addresses. -/
theorem existingFlow_spec (flows : List FlowRecord) (recipient tokenAddress : String)
    (hr : isAddress recipient = true) (ht : isAddress tokenAddress = true) :
    (∀ f, existingFlow false flows recipient tokenAddress = some f →
      f ∈ flows ∧ f.isCancelled = false ∧ f.isIncoming = false ∧
        addressesEqual f.entity recipient = true ∧
        addressesEqual f.superTokenAddress tokenAddress = true) ∧
    ((existingFlow false flows recipient tokenAddress).isSome = true ↔
      ∃ f ∈ flows, f.isCancelled = false ∧ f.isIncoming = false ∧
        addressesEqual f.entity recipient = true ∧
        addressesEqual f.superTokenAddress tokenAddress = true) ∧
    (∀ recipient2 tokenAddress2,
      addressesEqual recipient recipient2 = true →
      addressesEqual tokenAddress tokenAddress2 = true →
      isAddress recipient2 = true → isAddress tokenAddress2 = true →
      existingFlow false flows recipient tokenAddress =
        existingFlow false flows recipient2 tokenAddress2) := by
  have hopen : ∀ r t : String, isAddress r = true → isAddress t = true →
      existingFlow false flows r t =
        flows.find? fun f =>
          !f.isCancelled && !f.isIncoming && addressesEqual f.entity r &&
            addressesEqual f.superTokenAddress t := by
    intro r t h1 h2
    unfold existingFlow
    simp [h1, h2]
  refine ⟨?_, ?_, ?_⟩
  · intro f hf
    rw [hopen recipient tokenAddress hr ht] at hf
    have hmem := List.mem_of_find?_eq_some hf
    have hp := List.find?_some hf
    simp only [Bool.and_eq_true, Bool.not_eq_true'] at hp
    exact ⟨hmem, hp.1.1.1, hp.1.1.2, hp.1.2, hp.2⟩
  · rw [hopen recipient tokenAddress hr ht, List.find?_isSome]
    constructor
    · rintro ⟨f, hmem, hpred⟩
      simp only [Bool.and_eq_true, Bool.not_eq_true'] at hpred
      exact ⟨f, hmem, hpred.1.1.1, hpred.1.1.2, hpred.1.2, hpred.2⟩
    · rintro ⟨f, hmem, hc, hi, he, hs⟩
      exact ⟨f, hmem, by simp [hc, hi, he, hs]⟩
  · intro recipient2 tokenAddress2 hrr htt hr2 ht2
    rw [hopen recipient tokenAddress hr ht, hopen recipient2 tokenAddress2 hr2 ht2]
    have hlr : lowerString recipient = lowerString recipient2 := by
      simpa [addressesEqual] using hrr
    have hlt : lowerString tokenAddress = lowerString tokenAddress2 := by
      simpa [addressesEqual] using htt
    congr 1
    funext f
    simp [addressesEqual, hlr, hlt]

/-- Witness for C4: the lookup over one non-cancelled flow finds the same
record for the uppercase and the lowercase spelling of the counterparty
address. -/
theorem existingFlow_spec_witness :
    existingFlow false [flowSample] "0xABCDEFABCDEFABCDEFABCDEFABCDEFABCDEFABCD"
        "0x1111111111111111111111111111111111111111" =
      existingFlow false [flowSample] "0xabcdefabcdefabcdefabcdefabcdefabcdefabcd"
        "0x1111111111111111111111111111111111111111" :=
  (existingFlow_spec [flowSample] "0xABCDEFABCDEFABCDEFABCDEFABCDEFABCDEFABCD"
      "0x1111111111111111111111111111111111111111" (by decide) (by decide)).2.2
    "0xabcdefabcdefabcdefabcdefabcdefabcdefabcd"
    "0x1111111111111111111111111111111111111111"
    (by decide) (by decide) (by decide) (by decide)

/-- C6 (amended): the converted fields of a retained snapshot are present
exactly when the rate table holds a non-zero rate for the rate-lookup
identifier of the snapshot and the reference currency; when so they are the balance and the
net flow multiplied by the rate; when the entry is absent, or present with
the rate zero, both fields are omitted and nothing fails. -/
theorem superTokenItem_conversion (convertRates : RateTable) (referenceCurrency : String)
    (isTestNet : Bool) (superToken : SuperToken) :
    ((superTokenItem convertRates referenceCurrency isTestNet superToken).convertedAmount.isSome = true ↔
      ∃ rate, convertRates (getConvertRateToken superToken isTestNet) referenceCurrency =
          some rate ∧ rate ≠ 0) ∧
    ((superTokenItem convertRates referenceCurrency isTestNet superToken).convertedNetFlow.isSome = true ↔
      ∃ rate, convertRates (getConvertRateToken superToken isTestNet) referenceCurrency =
          some rate ∧ rate ≠ 0) ∧
    (∀ rate, convertRates (getConvertRateToken superToken isTestNet) referenceCurrency =
          some rate → rate ≠ 0 →
      (superTokenItem convertRates referenceCurrency isTestNet superToken).convertedAmount =
          some (getConvertedAmount superToken.balance rate) ∧
        (superTokenItem convertRates referenceCurrency isTestNet superToken).convertedNetFlow =
          some (getConvertedAmount superToken.netFlow rate)) ∧
    (convertRates (getConvertRateToken superToken isTestNet) referenceCurrency = none →
      (superTokenItem convertRates referenceCurrency isTestNet superToken).convertedAmount =
          none ∧
        (superTokenItem convertRates referenceCurrency isTestNet superToken).convertedNetFlow =
          none) := by
  unfold superTokenItem
  cases h : convertRates (getConvertRateToken superToken isTestNet) referenceCurrency with
  | none => simp [h]
  | some rate =>
    by_cases hz : rate = 0
    · subst hz
      simp [h]
    · simp [h, hz]

/-- Witness for C6 at the two-rate table: the converted fields of the sample
token are the multiplications by rate 2. -/
theorem superTokenItem_conversion_witness :
    (superTokenItem twoRateTable "USD" false sampleToken).convertedAmount =
        some (getConvertedAmount sampleToken.balance 2) ∧
      (superTokenItem twoRateTable "USD" false sampleToken).convertedNetFlow =
        some (getConvertedAmount sampleToken.netFlow 2) :=
  (superTokenItem_conversion twoRateTable "USD" false sampleToken).2.2.1 2
    (by decide) (by decide)

/-- C6 counterexample (to the claim as stated): with the zero-rate table the
entry for the sample token and USD is present, yet both converted fields of
the aggregated record are omitted. -/
theorem superTokenItem_zero_rate_counterexample :
    (zeroRateTable (getConvertRateToken sampleToken false) "USD").isSome = true ∧
    (useSuperTokenItems [sampleToken] zeroRateTable "USD" false).map
        (fun it => it.convertedAmount) = [none] ∧
    (useSuperTokenItems [sampleToken] zeroRateTable "USD" false).map
        (fun it => it.convertedNetFlow) = [none] := by
  refine ⟨by decide, by decide, by decide⟩

/-- C7: the aggregator output is the per-token display mapping applied, in
order, to exactly the snapshots with a non-zero balance or a non-zero net
flow; the retained snapshots form an order-preserving sublist of the input,
so no reordering happens. -/
theorem useSuperTokenItems_filter_order (superTokens : List SuperToken)
    (convertRates : RateTable) (referenceCurrency : String) (isTestNet : Bool) :
    useSuperTokenItems superTokens convertRates referenceCurrency isTestNet =
      (getAvailableSuperTokens superTokens).map
        (superTokenItem convertRates referenceCurrency isTestNet) ∧
    (∀ t, t ∈ getAvailableSuperTokens superTokens ↔
      t ∈ superTokens ∧ (t.balance ≠ 0 ∨ t.netFlow ≠ 0)) ∧
    List.Sublist (getAvailableSuperTokens superTokens) superTokens := by
  refine ⟨rfl, ?_, ?_⟩
  · intro t
    simp [getAvailableSuperTokens, List.mem_filter]
  · unfold getAvailableSuperTokens
    exact List.filter_sublist _
